import Mathlib

/-!
Shallow embedding of the `token_lottery` Anchor program
(`src/programs/anchor/src`): the `TokenLottery` state account and the
instruction handlers `process_initialize_config`, `process_buy_ticket`,
`process_commit_a_winner`, `process_choose_a_winner` and
`process_claim_prize`.

Modelling conventions:
- `u64` fields are `Nat`; additions and subtractions carry explicit
  overflow / underflow guards (Anchor programs are built with
  `overflow-checks = true`, so wraparound aborts the transaction), and a
  Rust panic (overflow, `unwrap` on `None`, `%` by zero) is the
  `TxResult.panicked` outcome.
- `Pubkey` values are opaque `Nat` identifiers.
- Cross-program invocations to external collaborators (system program
  transfer, token mint, Metaplex metadata) touch no field of the
  `TokenLottery` account except where the handler itself writes one; a
  handler run models a whole atomic transaction, so an `err` or
  `panicked` outcome leaves every account unchanged.
- the constants module of the repository (holding the `NAME` ticket
  base-name constant) is not among the sources, so handlers that use
  `NAME` take it as the explicit argument `baseName`.
-/

/-- Error codes of the program, modelled from their use sites in the
instruction handlers (the error module itself is not among the sources). -/
inductive ErrorCode where
  | LotteryNotOpen
  | NotAuthorized
  | RandomnessAlreadyRevealed
  | IncorrectRandomnessAccount
  | LotteryNotCompleted
  | WinnerChosen
  | RandomnessNotResolved
  | WinnerNotChosen
  | NotVerifiedTicket
  | IncorrectTicket
  deriving Repr, DecidableEq

/-- Outcome of one instruction (one atomic transaction): success with a
value, a returned program error, or a Rust panic aborting the transaction. -/
inductive TxResult (α : Type) where
  | ok : α → TxResult α
  | err : ErrorCode → TxResult α
  | panicked : TxResult α
  deriving Repr, DecidableEq

/-- Modulus of the 64-bit unsigned integers used by the account fields. -/
def U64_MOD : Nat := 2 ^ 64

/-- The `TokenLottery` state account, from `state.rs`. -/
structure TokenLottery where
  bump : Nat
  winner : Nat
  winner_chosen : Bool
  lottery_start : Nat
  lottery_end : Nat
  lottery_pot_amount : Nat
  ticket_num : Nat
  price : Nat
  randomness_account : Nat
  authority : Nat
  deriving Repr, DecidableEq

/-! Decimal rendering of a `Nat`, the embedding of Rust's
`u64::to_string()` used for ticket names: standard base-10 notation,
most significant digit first.  It is written with explicit fuel so that
it is structurally recursive and kernel-reducible. -/

/-- Little-endian base-10 digit list of `n`, with fuel (`fuel ≥ n`
suffices, see `decValue_decDigitsAux`). -/
def decDigitsAux : Nat → Nat → List Nat
  | 0, _ => []
  | fuel + 1, n => if n < 10 then [n] else n % 10 :: decDigitsAux fuel (n / 10)

/-- Little-endian base-10 digit list of `n`. -/
def decDigits (n : Nat) : List Nat := decDigitsAux (n + 1) n

/-- Value of a little-endian base-10 digit list. -/
def decValue : List Nat → Nat
  | [] => 0
  | d :: ds => d + 10 * decValue ds

/-- Decimal string of `n`, the model of Rust's `u64::to_string()`. -/
def decString (n : Nat) : String := String.mk ((decDigits n).reverse.map Nat.digitChar)

/-- Display name of the ticket with sequence number `seq`:
`NAME.to_owned() + seq.to_string()` (string concatenation, no separator). -/
def ticketName (baseName : String) (seq : Nat) : String :=
  baseName ++ decString seq

/-- A ticket as issued by `process_buy_ticket`: its sequence number (the
mint PDA seed) and the display name written into its metadata. -/
structure Ticket where
  sequenceNumber : Nat
  name : String
  deriving Repr, DecidableEq

/-- Null-character removal, the embedding of
`metadata.name.replace("\u{0}", "")` in `process_claim_prize` (removes
every NUL character). -/
def removeNulls (s : String) : String :=
  String.mk (s.data.filter (fun c => c != Char.ofNat 0))

/-- Collection field of a Metaplex metadata account as read by
`process_claim_prize`: the collection key and the `verified` flag. -/
structure CollectionInfo where
  key : Nat
  verified : Bool
  deriving Repr, DecidableEq

/-- A freshly created Anchor account is zero-initialized; fields that
`process_initialize_config` does not write keep this value. -/
def zeroAccount : TokenLottery :=
  { bump := 0, winner := 0, winner_chosen := false, lottery_start := 0,
    lottery_end := 0, lottery_pot_amount := 0, ticket_num := 0, price := 0,
    randomness_account := 0, authority := 0 }

/-- Embedding of `process_initialize_config` (`admin.rs`): writes the
configuration into a freshly zero-initialized `TokenLottery` account. -/
def process_initialize_config (bump start endSlot price payerKey : Nat) : TokenLottery :=
  { zeroAccount with
    bump := bump
    lottery_start := start
    lottery_end := endSlot
    price := price
    authority := payerKey
    randomness_account := 0
    ticket_num := 0
    winner_chosen := false }

/-- Embedding of `process_buy_ticket` (`buy_ticket.rs`).  Arguments:
`slot` is `Clock::get()?.slot`.  Checks the sale window, transfers the
price into the lottery account (external system-program call), adds it
to the pot, mints the ticket with name `baseName ++ decString ticket_num`
and increments `ticket_num`. -/
def process_buy_ticket (baseName : String) (s : TokenLottery) (slot : Nat) :
    TxResult (TokenLottery × Ticket) :=
  if slot < s.lottery_start ∨ slot > s.lottery_end then
    .err .LotteryNotOpen
  else if s.lottery_pot_amount + s.price ≥ U64_MOD then
    .panicked
  else if s.ticket_num + 1 ≥ U64_MOD then
    .panicked
  else
    .ok ({ s with
            lottery_pot_amount := s.lottery_pot_amount + s.price
            ticket_num := s.ticket_num + 1 },
         { sequenceNumber := s.ticket_num, name := ticketName baseName s.ticket_num })

/-- Embedding of `process_commit_a_winner` (`commit_winner.rs`).
Arguments: `payerKey` is the signer, `randKey` the key of the presented
randomness account, `seedSlot` its `seed_slot` field, `slot` the current
clock slot.  The source computes `clock.slot - 1` on `u64`, which panics
at slot 0 under overflow checks. -/
def process_commit_a_winner (s : TokenLottery) (payerKey randKey seedSlot slot : Nat) :
    TxResult TokenLottery :=
  if payerKey ≠ s.authority then
    .err .NotAuthorized
  else if slot = 0 then
    .panicked
  else if seedSlot ≠ slot - 1 then
    .err .RandomnessAlreadyRevealed
  else
    .ok { s with randomness_account := randKey }

/-- Embedding of `process_choose_a_winner` (`choose_winner.rs`).
Arguments: `randKey` is the key of the presented randomness account,
`payerKey` the signer, `slot` the clock slot, and `revealed` the result
of `randomness_data.get_value(&clock)` — `none` when the oracle has not
resolved, otherwise the revealed 32-byte value.  The source computes
`revealed_random_value[0] as u64 % token_lottery.ticket_num`, a panic
when `ticket_num = 0` (remainder by zero). -/
def process_choose_a_winner (s : TokenLottery) (randKey payerKey slot : Nat)
    (revealed : Option (List Nat)) : TxResult TokenLottery :=
  if randKey ≠ s.randomness_account then
    .err .IncorrectRandomnessAccount
  else if payerKey ≠ s.authority then
    .err .NotAuthorized
  else if slot < s.lottery_end then
    .err .LotteryNotCompleted
  else if s.winner_chosen then
    .err .WinnerChosen
  else
    match revealed with
    | none => .err .RandomnessNotResolved
    | some bytes =>
      if s.ticket_num = 0 then
        .panicked
      else
        .ok { s with
              winner := bytes.headD 0 % s.ticket_num
              winner_chosen := true }

/-- Embedding of `process_claim_prize` (`claim_prize.rs`).  Arguments:
`lotteryLamports` / `payerLamports` are the lamport balances of the
lottery account and the claimant, `metaName` the name stored in the
presented ticket's metadata account, `collection` its collection field,
`collectionMintKey` the collection mint key, `destinationAmount` the
claimant's token balance of the ticket mint.  Returns the new state and
the two new lamport balances.  `collection.as_ref().unwrap()` panics
when the field is `None`; the lamport `-=` / `+=` panic on underflow /
overflow. -/
def process_claim_prize (baseName : String) (s : TokenLottery)
    (lotteryLamports payerLamports : Nat) (metaName : String)
    (collection : Option CollectionInfo) (collectionMintKey : Nat)
    (destinationAmount : Nat) : TxResult (TokenLottery × Nat × Nat) :=
  if s.winner_chosen = false then
    .err .WinnerNotChosen
  else
    match collection with
    | none => .panicked
    | some c =>
      if c.verified = false then
        .err .NotVerifiedTicket
      else if c.key ≠ collectionMintKey then
        .err .IncorrectTicket
      else
        if removeNulls metaName ≠ ticketName baseName s.winner then
          .err .IncorrectTicket
        else if destinationAmount = 0 then
          .err .IncorrectTicket
        else if lotteryLamports < s.lottery_pot_amount then
          .panicked
        else if payerLamports + s.lottery_pot_amount ≥ U64_MOD then
          .panicked
        else
          .ok ({ s with lottery_pot_amount := 0 },
               lotteryLamports - s.lottery_pot_amount,
               payerLamports + s.lottery_pot_amount)

/-- A sequence of purchases: runs `process_buy_ticket` once per entry of
`slots` (the clock slot observed by that purchase), threading the state
and collecting the issued tickets; the first failure aborts. -/
def buySeq (baseName : String) : TokenLottery → List Nat → TxResult (TokenLottery × List Ticket)
  | s, [] => .ok (s, [])
  | s, slot :: rest =>
    match process_buy_ticket baseName s slot with
    | .ok (s', t) =>
      match buySeq baseName s' rest with
      | .ok (s'', ts) => .ok (s'', t :: ts)
      | .err e => .err e
      | .panicked => .panicked
    | .err e => .err e
    | .panicked => .panicked

/-- Specification-side reading of the winner derivation in C1: the whole
revealed 32-byte value treated as one unsigned integer (bytes read
little-endian).  It exists only to compare the specification's formula
`winnerIndex = revealedValue mod ticketCount` against the code, which
uses only the first byte. -/
def revealedValueAsUInt : List Nat → Nat
  | [] => 0
  | b :: bs => b + 256 * revealedValueAsUInt bs

/-! Concrete session states used to instantiate the theorems. -/

/-- A freshly configured example session: window `[100, 200]`, price 10,
authority 7, randomness account 55 already committed. -/
def exState : TokenLottery :=
  { bump := 1, winner := 0, winner_chosen := false, lottery_start := 100,
    lottery_end := 200, lottery_pot_amount := 0, ticket_num := 0, price := 10,
    randomness_account := 55, authority := 7 }

/-- Example session with three tickets sold, ready for winner selection. -/
def exChooseState : TokenLottery := { exState with ticket_num := 3 }

/-- A revealed 32-byte oracle value whose first byte is 0 but whose
little-endian integer value is 256. -/
def exBytes : List Nat := 0 :: 1 :: List.replicate 30 0

/-- Result of selecting a winner on `exChooseState` with `exBytes`. -/
def exChosen : TokenLottery := { exChooseState with winner := 0, winner_chosen := true }

/-- Result of selecting a winner on `exChooseState` with revealed first byte 5. -/
def exWin : TokenLottery := { exChooseState with winner := 2, winner_chosen := true }

/-- Example session after one ticket purchase. -/
def exAfterBuy : TokenLottery := { exState with lottery_pot_amount := 10, ticket_num := 1 }

/-- The ticket issued by that purchase (base name "T"). -/
def exTicket : Ticket := { sequenceNumber := 0, name := "T0" }

/-- Example session after re-committing to randomness account 66. -/
def exAfterCommit : TokenLottery := { exState with randomness_account := 66 }

/-- Example session after a second commit rebound it to randomness account 77. -/
def exAfterCommit2 : TokenLottery := { exState with randomness_account := 77 }

/-- Example session with a chosen winner (ticket 2 of 3) and a pot of 30. -/
def exClaimState : TokenLottery :=
  { exState with
    winner := 2
    winner_chosen := true
    ticket_num := 3
    lottery_pot_amount := 30 }

/-- Example session after the prize claim emptied the pot. -/
def exClaimed : TokenLottery := { exClaimState with lottery_pot_amount := 0 }

/-- Example session as produced by `process_initialize_config`. -/
def exInit : TokenLottery := process_initialize_config 1 100 200 10 7

/-- Example session after three purchases on `exInit`. -/
def exAfterThree : TokenLottery :=
  { exInit with lottery_pot_amount := 30, ticket_num := 3 }

/-- The three tickets issued by those purchases (base name "T"). -/
def exTickets : List Ticket :=
  [{ sequenceNumber := 0, name := "T0" },
   { sequenceNumber := 1, name := "T1" },
   { sequenceNumber := 2, name := "T2" }]

/-! Lemmas about the decimal rendering. -/

theorem decValue_decDigitsAux : ∀ fuel n, n ≤ fuel → decValue (decDigitsAux (fuel + 1) n) = n := by
  intro fuel
  induction fuel with
  | zero =>
    intro n hn
    interval_cases n
    rfl
  | succ fuel ih =>
    intro n hn
    by_cases h10 : n < 10
    · simp [decDigitsAux, h10, decValue]
    · have hpos : 0 < n := by omega
      have hdiv : n / 10 < n := Nat.div_lt_self hpos (by omega)
      have hle : n / 10 ≤ fuel := by omega
      have ihn := ih (n / 10) hle
      have hstep : decDigitsAux (fuel + 1 + 1) n =
          n % 10 :: decDigitsAux (fuel + 1) (n / 10) := by
        simp [decDigitsAux, h10]
      rw [hstep]
      simp only [decValue, ihn]
      omega

theorem decValue_decDigits (n : Nat) : decValue (decDigits n) = n :=
  decValue_decDigitsAux n n (Nat.le_refl n)

theorem decDigits_injective {a b : Nat} (h : decDigits a = decDigits b) : a = b := by
  have ha := decValue_decDigits a
  have hb := decValue_decDigits b
  rw [h] at ha
  omega

theorem decDigitsAux_lt : ∀ fuel n, ∀ d ∈ decDigitsAux fuel n, d < 10 := by
  intro fuel
  induction fuel with
  | zero => intro n d hd; simp [decDigitsAux] at hd
  | succ fuel ih =>
    intro n d hd
    by_cases h10 : n < 10
    · simp [decDigitsAux, h10] at hd
      omega
    · simp only [decDigitsAux, h10, if_false, List.mem_cons] at hd
      rcases hd with h | h
      · omega
      · exact ih (n / 10) d h

theorem decDigits_lt (n : Nat) : ∀ d ∈ decDigits n, d < 10 :=
  decDigitsAux_lt (n + 1) n

theorem digitChar_inj_lt : ∀ a < 10, ∀ b < 10, Nat.digitChar a = Nat.digitChar b → a = b := by
  decide

theorem map_digitChar_inj :
    ∀ l₁ l₂ : List Nat, (∀ d ∈ l₁, d < 10) → (∀ d ∈ l₂, d < 10) →
      l₁.map Nat.digitChar = l₂.map Nat.digitChar → l₁ = l₂ := by
  intro l₁
  induction l₁ with
  | nil =>
    intro l₂ _ _ h
    cases l₂ with
    | nil => rfl
    | cons b t => simp at h
  | cons a t ih =>
    intro l₂ h₁ h₂ h
    cases l₂ with
    | nil => simp at h
    | cons b t₂ =>
      simp only [List.map_cons, List.cons.injEq] at h
      have ha : a < 10 := h₁ a (List.mem_cons_self a t)
      have hb : b < 10 := h₂ b (List.mem_cons_self b t₂)
      have hab : a = b := digitChar_inj_lt a ha b hb h.1
      have ht : t = t₂ := by
        refine ih t₂ (fun d hd => h₁ d (List.mem_cons_of_mem a hd))
          (fun d hd => h₂ d (List.mem_cons_of_mem b hd)) h.2
      rw [hab, ht]

theorem decString_injective {a b : Nat} (h : decString a = decString b) : a = b := by
  have hdata : ((decDigits a).reverse.map Nat.digitChar) =
      ((decDigits b).reverse.map Nat.digitChar) := congrArg String.data h
  have hrev : (decDigits a).reverse = (decDigits b).reverse := by
    refine map_digitChar_inj _ _ ?_ ?_ hdata
    · intro d hd; exact decDigits_lt a d (List.mem_reverse.mp hd)
    · intro d hd; exact decDigits_lt b d (List.mem_reverse.mp hd)
  exact decDigits_injective (List.reverse_injective hrev)

theorem digitChar_ne_null : ∀ d < 10, Nat.digitChar d ≠ Char.ofNat 0 := by
  decide

theorem decString_no_null (n : Nat) : ∀ c ∈ (decString n).data, c ≠ Char.ofNat 0 := by
  intro c hc
  simp only [decString, List.mem_map, List.mem_reverse] at hc
  obtain ⟨d, hd, rfl⟩ := hc
  exact digitChar_ne_null d (decDigits_lt n d hd)

theorem ticketName_data (baseName : String) (n : Nat) :
    (ticketName baseName n).data = baseName.data ++ (decString n).data := rfl

theorem ticketName_no_null (baseName : String)
    (hb : ∀ c ∈ baseName.data, c ≠ Char.ofNat 0) (n : Nat) :
    ∀ c ∈ (ticketName baseName n).data, c ≠ Char.ofNat 0 := by
  intro c hc
  rw [ticketName_data, List.mem_append] at hc
  rcases hc with h | h
  · exact hb c h
  · exact decString_no_null n c h

theorem ticketName_inj (baseName : String) {a b : Nat}
    (h : ticketName baseName a = ticketName baseName b) : a = b := by
  have hdata := congrArg String.data h
  rw [ticketName_data, ticketName_data] at hdata
  have : (decString a).data = (decString b).data := List.append_cancel_left hdata
  exact decString_injective (by cases hda : decString a; cases hdb : decString b; simp_all)

theorem removeNulls_of_padded (core pad : List Char)
    (hcore : ∀ c ∈ core, c ≠ Char.ofNat 0) (hpad : ∀ c ∈ pad, c = Char.ofNat 0) :
    removeNulls (String.mk (core ++ pad)) = String.mk core := by
  simp only [removeNulls, List.filter_append]
  have h₁ : core.filter (fun c => c != Char.ofNat 0) = core := by
    rw [List.filter_eq_self]
    intro c hc
    simpa using hcore c hc
  have h₂ : pad.filter (fun c => c != Char.ofNat 0) = [] := by
    rw [List.filter_eq_nil_iff]
    intro c hc
    simpa using hpad c hc
  rw [h₁, h₂, List.append_nil]

example : decString 0 = "0" := rfl
example : decString 7 = "7" := rfl
example : decString 23 = "23" := rfl
example : decString 305 = "305" := rfl
example : decString 305 = Nat.repr 305 := rfl
example : decString 1000000 = Nat.repr 1000000 := rfl

/-! Helper lemmas about single handler runs. -/

theorem process_buy_ticket_ok {baseName : String} {s : TokenLottery} {slot : Nat}
    {s' : TokenLottery} {t : Ticket}
    (h : process_buy_ticket baseName s slot = .ok (s', t)) :
    t.sequenceNumber = s.ticket_num ∧
    t.name = ticketName baseName s.ticket_num ∧
    s' = { s with lottery_pot_amount := s.lottery_pot_amount + s.price,
                  ticket_num := s.ticket_num + 1 } := by
  simp only [process_buy_ticket] at h
  split at h
  · cases h
  · split at h
    · cases h
    · split at h
      · cases h
      · simp only [TxResult.ok.injEq, Prod.mk.injEq] at h
        obtain ⟨hs, ht⟩ := h
        subst hs
        subst ht
        exact ⟨rfl, rfl, rfl⟩

theorem process_buy_ticket_isOk {baseName : String} {s : TokenLottery} {slot : Nat}
    (hw : s.lottery_start ≤ slot ∧ slot ≤ s.lottery_end)
    (hpot : s.lottery_pot_amount + s.price < U64_MOD)
    (htn : s.ticket_num + 1 < U64_MOD) :
    process_buy_ticket baseName s slot =
      .ok ({ s with lottery_pot_amount := s.lottery_pot_amount + s.price,
                    ticket_num := s.ticket_num + 1 },
           { sequenceNumber := s.ticket_num, name := ticketName baseName s.ticket_num }) := by
  have h1 : ¬ (slot < s.lottery_start ∨ slot > s.lottery_end) := by omega
  simp only [process_buy_ticket, h1, if_false]
  have h2 : ¬ s.lottery_pot_amount + s.price ≥ U64_MOD := by omega
  have h3 : ¬ s.ticket_num + 1 ≥ U64_MOD := by omega
  simp [h2, h3]

theorem buySeq_ok {baseName : String} :
    ∀ {slots : List Nat} {s s' : TokenLottery} {ts : List Ticket},
    buySeq baseName s slots = .ok (s', ts) →
    s'.ticket_num = s.ticket_num + slots.length ∧
    s'.lottery_pot_amount = s.lottery_pot_amount + slots.length * s.price ∧
    s'.price = s.price ∧
    ts.map Ticket.sequenceNumber = List.range' s.ticket_num slots.length := by
  intro slots
  induction slots with
  | nil =>
    intro s s' ts h
    simp only [buySeq, TxResult.ok.injEq, Prod.mk.injEq] at h
    obtain ⟨hs, ht⟩ := h
    subst hs
    subst ht
    simp [List.range']
  | cons slot rest ih =>
    intro s s' ts h
    simp only [buySeq] at h
    cases hb : process_buy_ticket baseName s slot with
    | err e => rw [hb] at h; cases h
    | panicked => rw [hb] at h; cases h
    | ok p =>
      obtain ⟨s₁, t⟩ := p
      rw [hb] at h
      dsimp only at h
      cases hc : buySeq baseName s₁ rest with
      | err e => rw [hc] at h; cases h
      | panicked => rw [hc] at h; cases h
      | ok q =>
        obtain ⟨s₂, ts₂⟩ := q
        rw [hc] at h
        dsimp only at h
        simp only [TxResult.ok.injEq, Prod.mk.injEq] at h
        obtain ⟨hs, ht⟩ := h
        subst hs
        subst ht
        obtain ⟨hseq, hname, hstate⟩ := process_buy_ticket_ok hb
        obtain ⟨ih1, ih2, ih3, ih4⟩ := ih hc
        subst hstate
        dsimp only at ih1 ih2 ih3 ih4
        refine ⟨?_, ?_, ih3, ?_⟩
        · simp only [List.length_cons]
          omega
        · simp only [List.length_cons]
          rw [ih2, Nat.succ_mul]
          omega
        · simp only [List.map_cons, hseq, ih4, List.length_cons, List.range'_succ]

theorem process_commit_a_winner_ok {s : TokenLottery} {payerKey randKey seedSlot slot : Nat}
    {s' : TokenLottery}
    (h : process_commit_a_winner s payerKey randKey seedSlot slot = .ok s') :
    payerKey = s.authority ∧ 1 ≤ slot ∧ seedSlot = slot - 1 ∧
    s' = { s with randomness_account := randKey } := by
  simp only [process_commit_a_winner] at h
  split at h
  · cases h
  · split at h
    · cases h
    · split at h
      · cases h
      · simp only [TxResult.ok.injEq] at h
        subst h
        refine ⟨by omega, by omega, by omega, rfl⟩

theorem process_choose_a_winner_ok {s : TokenLottery} {randKey payerKey slot : Nat}
    {revealed : Option (List Nat)} {s' : TokenLottery}
    (h : process_choose_a_winner s randKey payerKey slot revealed = .ok s') :
    randKey = s.randomness_account ∧ payerKey = s.authority ∧
    s.lottery_end ≤ slot ∧ s.winner_chosen = false ∧ s.ticket_num ≠ 0 ∧
    ∃ bytes, revealed = some bytes ∧
      s' = { s with winner := bytes.headD 0 % s.ticket_num, winner_chosen := true } := by
  simp only [process_choose_a_winner] at h
  split at h
  · cases h
  · split at h
    · cases h
    · split at h
      · cases h
      · split at h
        · cases h
        · cases hrev : revealed with
          | none => rw [hrev] at h; cases h
          | some bytes =>
            rw [hrev] at h
            dsimp only at h
            split at h
            · cases h
            · simp only [TxResult.ok.injEq] at h
              subst h
              refine ⟨by omega, by omega, by omega, by simp_all, by omega,
                bytes, rfl, rfl⟩

theorem process_claim_prize_ok {baseName : String} {s : TokenLottery}
    {ll pl : Nat} {metaName : String} {collection : Option CollectionInfo}
    {cmk da : Nat} {s' : TokenLottery} {ll' pl' : Nat}
    (h : process_claim_prize baseName s ll pl metaName collection cmk da =
      .ok (s', ll', pl')) :
    s.winner_chosen = true ∧
    (∃ c, collection = some c ∧ c.verified = true ∧ c.key = cmk) ∧
    removeNulls metaName = ticketName baseName s.winner ∧
    0 < da ∧ s.lottery_pot_amount ≤ ll ∧ pl + s.lottery_pot_amount < U64_MOD ∧
    s' = { s with lottery_pot_amount := 0 } ∧
    ll' = ll - s.lottery_pot_amount ∧ pl' = pl + s.lottery_pot_amount := by
  simp only [process_claim_prize] at h
  split at h
  · cases h
  · cases hcol : collection with
    | none => rw [hcol] at h; cases h
    | some c =>
      rw [hcol] at h
      dsimp only at h
      split at h
      · cases h
      · split at h
        · cases h
        · split at h
          · cases h
          · split at h
            · cases h
            · split at h
              · cases h
              · split at h
                · cases h
                · simp only [TxResult.ok.injEq, Prod.mk.injEq] at h
                  obtain ⟨hs, hll, hpl⟩ := h
                  subst hs
                  subst hll
                  subst hpl
                  refine ⟨by simp_all, ⟨c, rfl, by simp_all, by omega⟩,
                    by simp_all, by omega, by omega, by omega, rfl, rfl, rfl⟩

/-! Claim theorems. -/

/-- C1, counterexample to the claim as stated: on a session with three
tickets and the revealed 32-byte oracle value `[0, 1, 0, …]` (the
unsigned integer 256), a successful SelectWinner sets `winner = 0`
(first byte 0 mod 3), whereas `revealedValue mod ticketCount` is
`256 mod 3 = 1`; the handler does not compute the claimed formula. -/
theorem c1_counterexample :
    process_choose_a_winner exChooseState 55 7 250 (some exBytes) = .ok exChosen ∧
    exChosen.winner = 0 ∧
    revealedValueAsUInt exBytes % exChooseState.ticket_num = 1 ∧
    exChosen.winner ≠ revealedValueAsUInt exBytes % exChooseState.ticket_num := by
  decide

/-- C1 (amended): a successful SelectWinner sets
`winnerIndex = (first byte of the revealed value) mod ticketCount` and
`winnerChosen = true`; the derivation is deterministic: two successful
runs whose revealed first bytes and ticket counts agree produce the same
winner index. -/
theorem c1_select_winner_first_byte :
    (∀ (s : TokenLottery) (randKey payerKey slot : Nat) (bytes : List Nat)
       (s' : TokenLottery),
       process_choose_a_winner s randKey payerKey slot (some bytes) = .ok s' →
       s'.winner = bytes.headD 0 % s.ticket_num ∧ s'.winner_chosen = true)
    ∧ (∀ (s₁ : TokenLottery) (rk₁ pk₁ sl₁ : Nat) (bytes₁ : List Nat)
         (s₁' : TokenLottery) (s₂ : TokenLottery) (rk₂ pk₂ sl₂ : Nat)
         (bytes₂ : List Nat) (s₂' : TokenLottery),
       process_choose_a_winner s₁ rk₁ pk₁ sl₁ (some bytes₁) = .ok s₁' →
       process_choose_a_winner s₂ rk₂ pk₂ sl₂ (some bytes₂) = .ok s₂' →
       bytes₁.headD 0 = bytes₂.headD 0 → s₁.ticket_num = s₂.ticket_num →
       s₁'.winner = s₂'.winner) := by
  have formula : ∀ (s : TokenLottery) (randKey payerKey slot : Nat) (bytes : List Nat)
      (s' : TokenLottery),
      process_choose_a_winner s randKey payerKey slot (some bytes) = .ok s' →
      s'.winner = bytes.headD 0 % s.ticket_num ∧ s'.winner_chosen = true := by
    intro s rk pk sl bytes s' h
    obtain ⟨_, _, _, _, _, b, hb, hs⟩ := process_choose_a_winner_ok h
    have hbb : bytes = b := by injection hb
    subst hbb
    subst hs
    exact ⟨rfl, rfl⟩
  refine ⟨formula, ?_⟩
  intro s₁ rk₁ pk₁ sl₁ bytes₁ s₁' s₂ rk₂ pk₂ sl₂ bytes₂ s₂' h₁ h₂ hbytes htn
  have e₁ := (formula s₁ rk₁ pk₁ sl₁ bytes₁ s₁' h₁).1
  have e₂ := (formula s₂ rk₂ pk₂ sl₂ bytes₂ s₂' h₂).1
  rw [e₁, e₂, hbytes, htn]

/-- C1 witness: instantiation of the amended theorem on `exChooseState`
with revealed first byte 5 among three tickets. -/
theorem c1_select_winner_first_byte_witness :
    exWin.winner = ([5] : List Nat).headD 0 % exChooseState.ticket_num ∧
    exWin.winner_chosen = true :=
  c1_select_winner_first_byte.1 exChooseState 55 7 250 [5] exWin (by decide)

/-- C5: SelectWinner on a session with zero tickets, all other
preconditions holding, panics (remainder by zero) and never produces a
winner: no successful result exists, so `winnerChosen` stays false and
`winner` is never written. -/
theorem c5_zero_tickets_select_panics (s : TokenLottery)
    (randKey payerKey slot : Nat) (bytes : List Nat)
    (h0 : s.ticket_num = 0) (h1 : randKey = s.randomness_account)
    (h2 : payerKey = s.authority) (h3 : s.lottery_end ≤ slot)
    (h4 : s.winner_chosen = false) :
    process_choose_a_winner s randKey payerKey slot (some bytes) = .panicked ∧
    ∀ s', process_choose_a_winner s randKey payerKey slot (some bytes) ≠ .ok s' := by
  have hres : process_choose_a_winner s randKey payerKey slot (some bytes) = .panicked := by
    subst h1
    subst h2
    simp [process_choose_a_winner, h0, h4, Nat.not_lt.mpr h3]
  refine ⟨hres, fun s' hok => ?_⟩
  rw [hres] at hok
  cases hok

/-- C5 witness: the example session before any sale (zero tickets) at
slot 250 with a revealed value. -/
theorem c5_witness :
    process_choose_a_winner exState 55 7 250 (some [9]) = .panicked ∧
    ∀ s', process_choose_a_winner exState 55 7 250 (some [9]) ≠ .ok s' :=
  c5_zero_tickets_select_panics exState 55 7 250 [9] (by decide) (by decide)
    (by decide) (by decide) (by decide)

/-- C6: a successful SelectWinner requires the presented randomness
account to equal the stored one, the caller to be the authority, the
slot to have reached the lottery end, `winnerChosen = false`, and the
oracle to have resolved; and when every other precondition holds but the
oracle has not resolved, the call fails with `RandomnessNotResolved`
(an error result, so no state change). -/
theorem c6_select_winner_guards :
    (∀ (s : TokenLottery) (randKey payerKey slot : Nat)
       (revealed : Option (List Nat)) (s' : TokenLottery),
       process_choose_a_winner s randKey payerKey slot revealed = .ok s' →
       randKey = s.randomness_account ∧ payerKey = s.authority ∧
       s.lottery_end ≤ slot ∧ s.winner_chosen = false ∧ revealed.isSome = true)
    ∧ (∀ (s : TokenLottery) (randKey payerKey slot : Nat),
       randKey = s.randomness_account → payerKey = s.authority →
       s.lottery_end ≤ slot → s.winner_chosen = false →
       process_choose_a_winner s randKey payerKey slot none =
         .err .RandomnessNotResolved) := by
  constructor
  · intro s rk pk sl rev s' h
    obtain ⟨x1, x2, x3, x4, _, b, hb, _⟩ := process_choose_a_winner_ok h
    refine ⟨x1, x2, x3, x4, ?_⟩
    rw [hb]
    rfl
  · intro s rk pk sl e1 e2 e3 e4
    subst e1
    subst e2
    simp [process_choose_a_winner, e4, Nat.not_lt.mpr e3]

/-- C6 witness: the guards on the example three-ticket session, and the
unresolved-oracle failure on the same session. -/
theorem c6_witness :
    (55 = exChooseState.randomness_account ∧ 7 = exChooseState.authority ∧
      exChooseState.lottery_end ≤ 250 ∧ exChooseState.winner_chosen = false ∧
      (some ([5] : List Nat)).isSome = true) ∧
    process_choose_a_winner exChooseState 55 7 250 none =
      .err .RandomnessNotResolved :=
  ⟨c6_select_winner_guards.1 exChooseState 55 7 250 (some [5]) exWin (by decide),
   c6_select_winner_guards.2 exChooseState 55 7 250 (by decide) (by decide)
     (by decide) (by decide)⟩

/-- C7: CommitRandomness succeeds exactly under its two guards — the
caller is the authority and the oracle commitment's seed slot is one
tick before the current slot — and on success it stores the presented
randomness account key, changing nothing else; otherwise it fails with
no successful result; committing twice leaves the session bound to the
most recent key only. -/
theorem c7_commit_guards_and_rebind :
    (∀ (s : TokenLottery) (payerKey randKey seedSlot slot : Nat)
       (s' : TokenLottery),
       process_commit_a_winner s payerKey randKey seedSlot slot = .ok s' →
       payerKey = s.authority ∧ seedSlot + 1 = slot ∧
       s' = { s with randomness_account := randKey })
    ∧ (∀ (s : TokenLottery) (payerKey randKey seedSlot slot : Nat),
       ¬ (payerKey = s.authority ∧ seedSlot + 1 = slot) →
       ∀ s', process_commit_a_winner s payerKey randKey seedSlot slot ≠ .ok s')
    ∧ (∀ (s : TokenLottery) (payerKey r₁ r₂ ss₁ sl₁ ss₂ sl₂ : Nat)
         (s₁ s₂ : TokenLottery),
       process_commit_a_winner s payerKey r₁ ss₁ sl₁ = .ok s₁ →
       process_commit_a_winner s₁ payerKey r₂ ss₂ sl₂ = .ok s₂ →
       s₂.randomness_account = r₂) := by
  refine ⟨?_, ?_, ?_⟩
  · intro s pk rk ss sl s' h
    obtain ⟨ha, hs1, hss, hst⟩ := process_commit_a_winner_ok h
    exact ⟨ha, by omega, hst⟩
  · intro s pk rk ss sl hne s' h
    obtain ⟨ha, hs1, hss, _⟩ := process_commit_a_winner_ok h
    exact hne ⟨ha, by omega⟩
  · intro s pk r1 r2 ss1 sl1 ss2 sl2 s1 s2 h1 h2
    obtain ⟨_, _, _, hst⟩ := process_commit_a_winner_ok h2
    rw [hst]

/-- C7 witness: a successful commit at slot 250 with seed slot 249, a
failing commit by a non-authority, and a re-commit that rebinds the
session to the newer key 77. -/
theorem c7_witness :
    (7 = exState.authority ∧ 249 + 1 = 250 ∧
      exAfterCommit = { exState with randomness_account := 66 }) ∧
    (∀ s', process_commit_a_winner exState 9 66 249 250 ≠ .ok s') ∧
    exAfterCommit2.randomness_account = 77 :=
  ⟨c7_commit_guards_and_rebind.1 exState 7 66 249 250 exAfterCommit (by decide),
   c7_commit_guards_and_rebind.2.1 exState 9 66 249 250 (by decide),
   c7_commit_guards_and_rebind.2.2 exState 7 66 77 249 250 259 260
     exAfterCommit exAfterCommit2 (by decide) (by decide)⟩

/-- C2: a successful ClaimPrize credits the claimant with exactly the
current pot, debits the lottery account by the same amount, and resets
the pot to 0; any second successful claim from the resulting state
transfers zero value: it changes neither balance. -/
theorem c2_claim_empties_pot (baseName : String) (s : TokenLottery) (ll pl : Nat)
    (mn : String) (col : Option CollectionInfo) (cmk da : Nat)
    (s' : TokenLottery) (ll' pl' : Nat)
    (h : process_claim_prize baseName s ll pl mn col cmk da = .ok (s', ll', pl')) :
    pl' = pl + s.lottery_pot_amount ∧ ll' = ll - s.lottery_pot_amount ∧
    s'.lottery_pot_amount = 0 ∧
    (∀ (mn₂ : String) (col₂ : Option CollectionInfo) (cmk₂ da₂ : Nat)
       (s'' : TokenLottery) (ll'' pl'' : Nat),
      process_claim_prize baseName s' ll' pl' mn₂ col₂ cmk₂ da₂ =
        .ok (s'', ll'', pl'') →
      pl'' = pl' ∧ ll'' = ll') := by
  obtain ⟨_, _, _, _, _, _, hs, hll, hpl⟩ := process_claim_prize_ok h
  have hpot0 : s'.lottery_pot_amount = 0 := by rw [hs]
  refine ⟨hpl, hll, hpot0, ?_⟩
  intro mn₂ col₂ cmk₂ da₂ s'' ll'' pl'' h₂
  obtain ⟨_, _, _, _, _, _, _, hll₂, hpl₂⟩ := process_claim_prize_ok h₂
  rw [hpot0] at hll₂ hpl₂
  simp at hll₂ hpl₂
  exact ⟨hpl₂, hll₂⟩

/-- C2 witness: the claim on the example session with pot 30, then the
conditional second-claim clause for the emptied session. -/
theorem c2_witness :
    (80 : Nat) = 50 + exClaimState.lottery_pot_amount ∧
    (970 : Nat) = 1000 - exClaimState.lottery_pot_amount ∧
    exClaimed.lottery_pot_amount = 0 ∧
    (∀ (mn₂ : String) (col₂ : Option CollectionInfo) (cmk₂ da₂ : Nat)
       (s'' : TokenLottery) (ll'' pl'' : Nat),
      process_claim_prize "T" exClaimed 970 80 mn₂ col₂ cmk₂ da₂ =
        .ok (s'', ll'', pl'') →
      pl'' = 80 ∧ ll'' = 970) :=
  c2_claim_empties_pot "T" exClaimState 1000 50 "T2" (some ⟨77, true⟩) 77 1
    exClaimed 970 80 (by decide)

/-- C3: starting from a freshly configured session, after any sequence
of N successful purchases `ticketCount = N`, the pot equals `N * price`,
the issued sequence numbers are exactly `0, …, N-1` (hence unique and in
`[0, N)`), and each single purchase issues the pre-increment
`ticket_num` as sequence number and increments `ticket_num` by 1. -/
theorem c3_purchases_accumulate (baseName : String)
    (bump start endSlot price payerKey : Nat) (slots : List Nat)
    (s' : TokenLottery) (ts : List Ticket)
    (h : buySeq baseName (process_initialize_config bump start endSlot price payerKey)
        slots = .ok (s', ts)) :
    s'.ticket_num = slots.length ∧
    s'.lottery_pot_amount = slots.length * price ∧
    ts.map Ticket.sequenceNumber = List.range slots.length ∧
    (ts.map Ticket.sequenceNumber).Nodup ∧
    (∀ t ∈ ts, t.sequenceNumber < slots.length) ∧
    (∀ (baseName₂ : String) (s₂ : TokenLottery) (slot₂ : Nat)
       (s₂' : TokenLottery) (t₂ : Ticket),
      process_buy_ticket baseName₂ s₂ slot₂ = .ok (s₂', t₂) →
      t₂.sequenceNumber = s₂.ticket_num ∧ s₂'.ticket_num = s₂.ticket_num + 1) := by
  obtain ⟨h1, h2, h3, h4⟩ := buySeq_ok h
  dsimp only [process_initialize_config, zeroAccount] at h1 h2 h4
  have hmap : ts.map Ticket.sequenceNumber = List.range slots.length := by
    rw [List.range_eq_range']
    exact h4
  refine ⟨by omega, by simpa using h2, hmap, ?_, ?_, ?_⟩
  · rw [hmap]
    exact List.nodup_range slots.length
  · intro t ht
    have : t.sequenceNumber ∈ ts.map Ticket.sequenceNumber :=
      List.mem_map_of_mem Ticket.sequenceNumber ht
    rw [hmap] at this
    exact List.mem_range.mp this
  · intro bn₂ s₂ slot₂ s₂' t₂ h₂
    obtain ⟨hseq, _, hst⟩ := process_buy_ticket_ok h₂
    refine ⟨hseq, ?_⟩
    rw [hst]

/-- C3 witness: three purchases at slots 100, 150, 200 on the example
configuration (price 10). -/
theorem c3_witness :
    exAfterThree.ticket_num = ([100, 150, 200] : List Nat).length ∧
    exAfterThree.lottery_pot_amount = ([100, 150, 200] : List Nat).length * 10 ∧
    exTickets.map Ticket.sequenceNumber = List.range ([100, 150, 200] : List Nat).length ∧
    (exTickets.map Ticket.sequenceNumber).Nodup ∧
    (∀ t ∈ exTickets, t.sequenceNumber < ([100, 150, 200] : List Nat).length) ∧
    (∀ (baseName₂ : String) (s₂ : TokenLottery) (slot₂ : Nat)
       (s₂' : TokenLottery) (t₂ : Ticket),
      process_buy_ticket baseName₂ s₂ slot₂ = .ok (s₂', t₂) →
      t₂.sequenceNumber = s₂.ticket_num ∧ s₂'.ticket_num = s₂.ticket_num + 1) :=
  c3_purchases_accumulate "T" 1 100 200 10 7 [100, 150, 200] exAfterThree exTickets
    (by decide)

/-- C4: `winner_chosen` is initialized to false by configuration, kept
unchanged by purchases, commits and claims, and set to true only by a
successful SelectWinner, which requires it to be false — so it goes from
false to true exactly once and is never reset. -/
theorem c4_winner_chosen_once :
    (∀ (bump start endSlot price payerKey : Nat),
      (process_initialize_config bump start endSlot price payerKey).winner_chosen = false)
    ∧ (∀ (baseName : String) (s : TokenLottery) (slot : Nat)
         (s' : TokenLottery) (t : Ticket),
      process_buy_ticket baseName s slot = .ok (s', t) →
      s'.winner_chosen = s.winner_chosen)
    ∧ (∀ (s : TokenLottery) (pk rk ss sl : Nat) (s' : TokenLottery),
      process_commit_a_winner s pk rk ss sl = .ok s' →
      s'.winner_chosen = s.winner_chosen)
    ∧ (∀ (s : TokenLottery) (rk pk sl : Nat) (rev : Option (List Nat))
         (s' : TokenLottery),
      process_choose_a_winner s rk pk sl rev = .ok s' →
      s.winner_chosen = false ∧ s'.winner_chosen = true)
    ∧ (∀ (baseName : String) (s : TokenLottery) (ll pl : Nat) (mn : String)
         (col : Option CollectionInfo) (cmk da : Nat) (s' : TokenLottery)
         (ll' pl' : Nat),
      process_claim_prize baseName s ll pl mn col cmk da = .ok (s', ll', pl') →
      s'.winner_chosen = s.winner_chosen) := by
  refine ⟨?_, ?_, ?_, ?_, ?_⟩
  · intro _ _ _ _ _
    rfl
  · intro bn s slot s' t h
    obtain ⟨_, _, hst⟩ := process_buy_ticket_ok h
    rw [hst]
  · intro s pk rk ss sl s' h
    obtain ⟨_, _, _, hst⟩ := process_commit_a_winner_ok h
    rw [hst]
  · intro s rk pk sl rev s' h
    obtain ⟨_, _, _, h4, _, b, _, hst⟩ := process_choose_a_winner_ok h
    exact ⟨h4, by rw [hst]⟩
  · intro bn s ll pl mn col cmk da s' ll' pl' h
    obtain ⟨_, _, _, _, _, _, hst, _, _⟩ := process_claim_prize_ok h
    rw [hst]

/-- C4 witness: one run of every operation on the example sessions. -/
theorem c4_witness :
    (process_initialize_config 1 100 200 10 7).winner_chosen = false ∧
    exAfterBuy.winner_chosen = exState.winner_chosen ∧
    exAfterCommit.winner_chosen = exState.winner_chosen ∧
    (exChooseState.winner_chosen = false ∧ exWin.winner_chosen = true) ∧
    exClaimed.winner_chosen = exClaimState.winner_chosen :=
  ⟨c4_winner_chosen_once.1 1 100 200 10 7,
   c4_winner_chosen_once.2.1 "T" exState 150 exAfterBuy exTicket (by decide),
   c4_winner_chosen_once.2.2.1 exState 7 66 249 250 exAfterCommit (by decide),
   c4_winner_chosen_once.2.2.2.1 exChooseState 55 7 250 (some [5]) exWin (by decide),
   c4_winner_chosen_once.2.2.2.2 "T" exClaimState 1000 50 "T2" (some ⟨77, true⟩) 77 1
     exClaimed 970 80 (by decide)⟩

/-- C8: the timing check of PurchaseTicket accepts exactly the inclusive
window: when the arithmetic guards leave room, there is a successful
result iff `saleStart ≤ slot ≤ saleEnd`, and any slot outside the window
yields the `LotteryNotOpen` error (so nothing of the purchase happens). -/
theorem c8_purchase_window_inclusive (baseName : String) (s : TokenLottery) (slot : Nat)
    (hpot : s.lottery_pot_amount + s.price < U64_MOD)
    (htn : s.ticket_num + 1 < U64_MOD) :
    ((∃ p, process_buy_ticket baseName s slot = .ok p) ↔
      (s.lottery_start ≤ slot ∧ slot ≤ s.lottery_end))
    ∧ (slot < s.lottery_start ∨ s.lottery_end < slot →
      process_buy_ticket baseName s slot = .err .LotteryNotOpen) := by
  constructor
  · constructor
    · rintro ⟨p, hp⟩
      by_cases hw : slot < s.lottery_start ∨ slot > s.lottery_end
      · simp [process_buy_ticket, hw] at hp
      · push_neg at hw
        exact hw
    · intro hw
      exact ⟨_, process_buy_ticket_isOk hw hpot htn⟩
  · intro hw
    have hw' : slot < s.lottery_start ∨ slot > s.lottery_end := hw
    simp [process_buy_ticket, hw']

/-- C8 witness: on the example session with window [100, 200], purchases
at slots 100 and 200 succeed and a purchase at slot 201 fails with the
timing error. -/
theorem c8_witness :
    (∃ p, process_buy_ticket "T" exState 100 = .ok p) ∧
    (∃ p, process_buy_ticket "T" exState 200 = .ok p) ∧
    process_buy_ticket "T" exState 201 = .err .LotteryNotOpen :=
  ⟨(c8_purchase_window_inclusive "T" exState 100 (by decide) (by decide)).1.mpr
     (by decide),
   (c8_purchase_window_inclusive "T" exState 200 (by decide) (by decide)).1.mpr
     (by decide),
   (c8_purchase_window_inclusive "T" exState 201 (by decide) (by decide)).2
     (by decide)⟩

/-- C9: the name recorded at purchase for sequence number n is
`baseName ++ decimal n`, ClaimPrize rebuilds the expected name from
`winner` the same way, and for a stored name that is the minted name
plus trailing NUL padding the name check passes iff n equals the winner
index; on a mismatch ClaimPrize fails with `IncorrectTicket` even when
every other check passes. -/
theorem c9_ticket_name_roundtrip (baseName : String)
    (hb : ∀ c ∈ baseName.data, c ≠ Char.ofNat 0)
    (n : Nat) (pad : List Char) (hpad : ∀ c ∈ pad, c = Char.ofNat 0)
    (s : TokenLottery) (ll pl cmk da : Nat) (c : CollectionInfo)
    (hw : s.winner_chosen = true) (hv : c.verified = true) (hk : c.key = cmk) :
    (removeNulls (String.mk ((ticketName baseName n).data ++ pad)) =
        ticketName baseName s.winner ↔ n = s.winner)
    ∧ (n ≠ s.winner →
      process_claim_prize baseName s ll pl
        (String.mk ((ticketName baseName n).data ++ pad)) (some c) cmk da =
        .err .IncorrectTicket) := by
  have hrm : removeNulls (String.mk ((ticketName baseName n).data ++ pad)) =
      ticketName baseName n := by
    rw [removeNulls_of_padded _ _ (ticketName_no_null baseName hb n) hpad]
  have hiff : (removeNulls (String.mk ((ticketName baseName n).data ++ pad)) =
      ticketName baseName s.winner ↔ n = s.winner) := by
    rw [hrm]
    constructor
    · exact fun he => ticketName_inj baseName he
    · intro he
      rw [he]
  refine ⟨hiff, ?_⟩
  intro hne
  have hneq : removeNulls (String.mk ((ticketName baseName n).data ++ pad)) ≠
      ticketName baseName s.winner := fun he => hne (hiff.mp he)
  simp [process_claim_prize, hw, hv, hk, hneq]

/-- C9 witness: base name "T", presented ticket 1 with one NUL of
padding against winner index 2. -/
theorem c9_witness :
    (removeNulls (String.mk ((ticketName "T" 1).data ++ [Char.ofNat 0])) =
        ticketName "T" exClaimState.winner ↔ 1 = exClaimState.winner)
    ∧ (1 ≠ exClaimState.winner →
      process_claim_prize "T" exClaimState 1000 50
        (String.mk ((ticketName "T" 1).data ++ [Char.ofNat 0]))
        (some ⟨77, true⟩) 77 1 =
        .err .IncorrectTicket) :=
  c9_ticket_name_roundtrip "T" (by decide) 1 [Char.ofNat 0] (by decide)
    exClaimState 1000 50 77 1 ⟨77, true⟩ (by decide) (by decide) (by decide)

/-- C10: when a winner is chosen and the presented metadata has no
collection field, ClaimPrize panics on the unwrap instead of returning a
clean error; and the integrity errors `NotVerifiedTicket` and
`IncorrectTicket` are reachable only when a collection field is present. -/
theorem c10_missing_collection_panics :
    (∀ (baseName : String) (s : TokenLottery) (ll pl : Nat) (mn : String)
       (cmk da : Nat),
      s.winner_chosen = true →
      process_claim_prize baseName s ll pl mn none cmk da = .panicked)
    ∧ (∀ (baseName : String) (s : TokenLottery) (ll pl : Nat) (mn : String)
         (col : Option CollectionInfo) (cmk da : Nat) (e : ErrorCode),
      process_claim_prize baseName s ll pl mn col cmk da = .err e →
      (e = .NotVerifiedTicket ∨ e = .IncorrectTicket) → col.isSome = true) := by
  constructor
  · intro bn s ll pl mn cmk da hw
    simp [process_claim_prize, hw]
  · intro bn s ll pl mn col cmk da e h he
    cases col with
    | some c => rfl
    | none =>
      simp only [process_claim_prize] at h
      split at h
      · simp only [TxResult.err.injEq] at h
        subst h
        rcases he with he | he <;> exact absurd he (by decide)
      · cases h

/-- C10 witness: with the winner chosen, a claim with a missing
collection field panics; a claim with a present collection field but a
wrong name returns the clean `IncorrectTicket` error. -/
theorem c10_witness :
    process_claim_prize "T" exClaimState 1000 50 "T2" none 77 1 = .panicked ∧
    (some (⟨77, true⟩ : CollectionInfo)).isSome = true :=
  ⟨c10_missing_collection_panics.1 "T" exClaimState 1000 50 "T2" 77 1 (by decide),
   c10_missing_collection_panics.2 "T" exClaimState 1000 50 "T9" (some ⟨77, true⟩)
     77 1 .IncorrectTicket (by decide) (by decide)⟩
